import Mathlib

/-!
Shallow embedding of the TaskForge task-management core: the task aggregate
(domain package), the Postgres repository's conditional-write and query
compilation logic, and the application service's field-mask update path.
Time is threaded explicitly as an integer parameter; the database is a list
of stored rows carrying the soft-delete marker.
-/

deriving instance DecidableEq for Except

/-- Statuses of a task, `TodoStatus` in the domain package
(values 1..4 in Go). -/
inductive TodoStatus
  | pending
  | inProgress
  | completed
  | archived
deriving DecidableEq, Repr, Fintype

/-- Integer value of a status as stored in the database (iota + 1). -/
def TodoStatus.toInt : TodoStatus → Int
  | .pending => 1
  | .inProgress => 2
  | .completed => 3
  | .archived => 4

/-- Priorities of a task, `TodoPriority` in the domain package
(values 1..4 in Go). -/
inductive TodoPriority
  | low
  | medium
  | high
  | critical
deriving DecidableEq, Repr, Fintype

/-- Integer value of a priority as stored in the database (iota + 1). -/
def TodoPriority.toInt : TodoPriority → Int
  | .low => 1
  | .medium => 2
  | .high => 3
  | .critical => 4

/-- Domain and storage errors of the core (domain errors file plus the
database's unique-key violation surfaced by Create/BatchCreate). -/
inductive DomainErr
  | errEmptyTitle
  | errTitleTooLong
  | errDescriptionTooLong
  | errInvalidOwnerId
  | errInvalidTenantID
  | errInvalidPriority
  | errDueDateInPast
  | errTooManyTags
  | errInvalidStatusTransition
  | errTodoNotFound
  | errVersionMismatch
  | errConflict
deriving DecidableEq, Repr

/-- The task aggregate, `Todo` in the domain package. Timestamps are
integers; optional fields are `Option`. -/
structure Todo where
  id : String
  title : String
  description : String
  status : TodoStatus
  priority : TodoPriority
  dueDate : Option Int
  tags : List String
  ownerID : String
  assignedTo : Option String
  tenantID : String
  createdAt : Int
  updatedAt : Int
  version : Int
deriving DecidableEq, Repr

/-- Title validation, `validateTitle`: empty titles and titles longer than
200 characters are rejected. -/
def validateTitle (title : String) : Option DomainErr :=
  if title = "" then some DomainErr.errEmptyTitle
  else if title.length > 200 then some DomainErr.errTitleTooLong
  else none

/-- Constructor `NewTodo`: validates title, owner and tenant and builds the
initial aggregate. The generated uuid and the current time are passed in as
parameters `id` and `now`. -/
def NewTodo (id title description ownerID tenantID : String)
    (priority : TodoPriority) (now : Int) : Except DomainErr Todo :=
  match validateTitle title with
  | some e => Except.error e
  | none =>
    if ownerID = "" then Except.error DomainErr.errInvalidOwnerId
    else if tenantID = "" then Except.error DomainErr.errInvalidTenantID
    else Except.ok
      { id := id
        title := title
        description := description
        status := TodoStatus.pending
        priority := priority
        dueDate := none
        tags := []
        ownerID := ownerID
        assignedTo := none
        tenantID := tenantID
        createdAt := now
        updatedAt := now
        version := 1 }

/-- Allowed target statuses for each source status, the
`validTransitions` table inside `isValidStatusTransition` (every status has
a row, so the map lookup never misses). -/
def validTransitions : TodoStatus → List TodoStatus
  | .pending => [.inProgress, .archived]
  | .inProgress => [.archived, .completed, .pending]
  | .completed => [.archived, .pending]
  | .archived => [.pending]

/-- Transition check `isValidStatusTransition`: linear search of the row of
the table for the source status. -/
def isValidStatusTransition (f t : TodoStatus) : Bool :=
  (validTransitions f).contains t

/-- Priority range check `isValidPriority` (1 ≤ p ≤ 4 on the Go int). -/
def isValidPriority (p : TodoPriority) : Bool :=
  1 ≤ p.toInt && p.toInt ≤ 4

/-- Mutator `UpdateTitle`: on validation failure the receiver is returned
unchanged together with the error. -/
def Todo.UpdateTitle (t : Todo) (title : String) (now : Int) :
    Todo × Option DomainErr :=
  match validateTitle title with
  | some e => (t, some e)
  | none =>
    ({ t with
        title := title, updatedAt := now, version := t.version + 1 }, none)

/-- Mutator `UpdateDescription`: descriptions longer than 2000 characters
are rejected. -/
def Todo.UpdateDescription (t : Todo) (description : String) (now : Int) :
    Todo × Option DomainErr :=
  if description.length > 2000 then (t, some DomainErr.errDescriptionTooLong)
  else
    ({ t with
        description := description, updatedAt := now,
        version := t.version + 1 }, none)

/-- Mutator `UpdateStatus` on the aggregate: consults the transition
table. -/
def Todo.UpdateStatus (t : Todo) (newStatus : TodoStatus) (now : Int) :
    Todo × Option DomainErr :=
  if isValidStatusTransition t.status newStatus then
    ({ t with
        status := newStatus, updatedAt := now,
        version := t.version + 1 }, none)
  else (t, some DomainErr.errInvalidStatusTransition)

/-- Mutator `UpdatePriority`. -/
def Todo.UpdatePriority (t : Todo) (priority : TodoPriority) (now : Int) :
    Todo × Option DomainErr :=
  if isValidPriority priority then
    ({ t with
        priority := priority, updatedAt := now,
        version := t.version + 1 }, none)
  else (t, some DomainErr.errInvalidPriority)

/-- Mutator `SetDueDate`: a non-nil due date strictly before `now` is
rejected; otherwise the (possibly nil) due date is stored. -/
def Todo.SetDueDate (t : Todo) (dueDate : Option Int) (now : Int) :
    Todo × Option DomainErr :=
  match dueDate with
  | some d =>
    if d < now then (t, some DomainErr.errDueDateInPast)
    else
      ({ t with
          dueDate := some d, updatedAt := now,
          version := t.version + 1 }, none)
  | none =>
    ({ t with
        dueDate := none, updatedAt := now,
        version := t.version + 1 }, none)

/-- Mutator `AssignTo`: always succeeds, `none` unassigns. -/
def Todo.AssignTo (t : Todo) (userID : Option String) (now : Int) :
    Todo × Option DomainErr :=
  ({ t with
      assignedTo := userID, updatedAt := now,
      version := t.version + 1 }, none)

/-- Mutator `AddTags`: rejected when existing plus new tag count exceeds
20; otherwise the new tags are appended without deduplication. -/
def Todo.AddTags (t : Todo) (tags : List String) (now : Int) :
    Todo × Option DomainErr :=
  if t.tags.length + tags.length > 20 then (t, some DomainErr.errTooManyTags)
  else
    ({ t with
        tags := t.tags ++ tags, updatedAt := now,
        version := t.version + 1 }, none)

/-- Request-scoped list filter, `ListFilter` in the domain package. -/
structure ListFilter where
  tenantID : String
  ownerID : Option String := none
  assignedTo : Option String := none
  statuses : List TodoStatus := []
  priorities : List TodoPriority := []
  tags : List String := []
  dueDateFrom : Option Int := none
  dueDateTo : Option Int := none
  searchQuery : Option String := none
  page : Int := 0
  pageSize : Int := 0
  sortBy : String := ""
  sortAscending : Bool := false
deriving DecidableEq, Repr

/-- Filter validation `ListFilter.Validate`: a missing tenant is an error;
page and page size are clamped in place, never rejected. -/
def ListFilter.Validate (f : ListFilter) : Except DomainErr ListFilter :=
  if f.tenantID = "" then Except.error DomainErr.errInvalidTenantID
  else
    let f1 := if f.page < 1 then { f with page := 1 } else f
    let f2 :=
      if f1.pageSize < 1 ∨ f1.pageSize > 100 then { f1 with pageSize := 20 }
      else f1
    Except.ok f2

/-- A value bound as a query parameter (an element of the `args` slice
handed to the database driver). -/
inductive SqlArg
  | str (s : String)
  | strArr (a : List String)
  | intArr (a : List Int)
  | time (t : Int)
deriving DecidableEq, Repr

/-- Condition list and bound arguments built by `buildWhereClause` before
joining: starts from the fixed tenant and soft-delete conjuncts and appends
one parameterized conjunct per populated optional field, in source order. -/
def buildWhereConditions (filter : ListFilter) : List String × List SqlArg :=
  let conditions : List String := ["tenant_id = $1", "delete_at IS NULL"]
  let args : List SqlArg := [SqlArg.str filter.tenantID]
  let argCount : Nat := 1
  let (conditions, args, argCount) :=
    match filter.ownerID with
    | some o =>
      (conditions ++ ["owner_id = $" ++ toString (argCount + 1)],
        args ++ [SqlArg.str o], argCount + 1)
    | none => (conditions, args, argCount)
  let (conditions, args, argCount) :=
    match filter.assignedTo with
    | some a =>
      (conditions ++ ["assigned_to = $" ++ toString (argCount + 1)],
        args ++ [SqlArg.str a], argCount + 1)
    | none => (conditions, args, argCount)
  let (conditions, args, argCount) :=
    if filter.statuses.length > 0 then
      (conditions ++ ["status = ANY($" ++ toString (argCount + 1) ++ ")"],
        args ++ [SqlArg.intArr (filter.statuses.map TodoStatus.toInt)],
        argCount + 1)
    else (conditions, args, argCount)
  let (conditions, args, argCount) :=
    if filter.priorities.length > 0 then
      (conditions ++ ["priority = ANY($" ++ toString (argCount + 1) ++ ")"],
        args ++ [SqlArg.intArr (filter.priorities.map TodoPriority.toInt)],
        argCount + 1)
    else (conditions, args, argCount)
  let (conditions, args, argCount) :=
    if filter.tags.length > 0 then
      (conditions ++ ["tags && $" ++ toString (argCount + 1)],
        args ++ [SqlArg.strArr filter.tags], argCount + 1)
    else (conditions, args, argCount)
  let (conditions, args, argCount) :=
    match filter.dueDateFrom with
    | some d =>
      (conditions ++ ["due_date >= $" ++ toString (argCount + 1)],
        args ++ [SqlArg.time d], argCount + 1)
    | none => (conditions, args, argCount)
  let (conditions, args, argCount) :=
    match filter.dueDateTo with
    | some d =>
      (conditions ++ ["due_date <= $" ++ toString (argCount + 1)],
        args ++ [SqlArg.time d], argCount + 1)
    | none => (conditions, args, argCount)
  let (conditions, args, _) :=
    match filter.searchQuery with
    | some q =>
      (conditions ++
        ["(title ILIKE $" ++ toString (argCount + 1) ++
          " OR description ILIKE $" ++ toString (argCount + 1) ++ ")"],
        args ++ [SqlArg.str ("%" ++ q ++ "%")], argCount + 1)
    | none => (conditions, args, argCount)
  (conditions, args)

/-- The WHERE clause `buildWhereClause` returns: the conjuncts joined with
AND, plus the bound arguments. -/
def buildWhereClause (filter : ListFilter) : String × List SqlArg :=
  let (conditions, args) := buildWhereConditions filter
  (String.intercalate " AND " conditions, args)

/-- Sort-field allow-list, the `validSortFields` map in
`buildOrderByClause`. -/
def validSortFields : List String :=
  ["created_at", "updated_at", "due_date", "priority", "status", "title"]

/-- ORDER BY compilation `buildOrderByClause`: unknown sort fields fall
back to created_at; the direction always follows the request. -/
def buildOrderByClause (filter : ListFilter) : String :=
  let sortBy :=
    if validSortFields.contains filter.sortBy then filter.sortBy
    else "created_at"
  let order := if filter.sortAscending then "ASC" else "DESC"
  "ORDER BY " ++ sortBy ++ " " ++ order

/-- LIMIT and OFFSET values the `List` operation appends to the argument
slice: limit is the page size, offset is (page - 1) * pageSize. -/
def listLimitOffset (filter : ListFilter) : Int × Int :=
  (filter.pageSize, (filter.page - 1) * filter.pageSize)

/-- Columns of the todos table, from the create-table migration. -/
def todosColumns : List String :=
  ["id", "title", "description", "status", "priority", "due_date", "tags",
    "owner_id", "assigned_to", "tenant_id", "created_at", "updated_at",
    "deleted_at", "version"]

/-- A row of the todos table: the task columns plus the soft-delete
marker column deleted_at. -/
structure StoredRow where
  todo : Todo
  deletedAt : Option Int
deriving DecidableEq, Repr

/-- The visible state of the todos table. -/
def Store := List StoredRow

/-- Row predicate of the conditional UPDATE in `Update`:
id, tenant and version equal the argument's and the row is live. -/
def rowMatchesUpdate (todo : Todo) (r : StoredRow) : Bool :=
  r.todo.id == todo.id && r.todo.tenantID == todo.tenantID &&
    r.todo.version == todo.version && r.deletedAt.isNone

/-- SET list of `Update`: payload columns from the argument, updated_at
from the clock, version from the stored version plus one. -/
def applyUpdateSet (todo : Todo) (now : Int) (r : StoredRow) : StoredRow :=
  { r with
    todo := { r.todo with
      title := todo.title, description := todo.description,
      status := todo.status, priority := todo.priority,
      dueDate := todo.dueDate, tags := todo.tags,
      assignedTo := todo.assignedTo, updatedAt := now,
      version := r.todo.version + 1 } }

/-- Repository `Update`: one conditional UPDATE; zero affected rows is
reported as a version mismatch and leaves the table unchanged. -/
def PostgresRepository.Update (store : List StoredRow) (todo : Todo)
    (now : Int) : List StoredRow × Option DomainErr :=
  if store.countP (fun r => rowMatchesUpdate todo r) = 0 then
    (store, some DomainErr.errVersionMismatch)
  else
    (store.map (fun r =>
      if rowMatchesUpdate todo r then applyUpdateSet todo now r else r), none)

/-- Row predicate of the conditional UPDATE in `UpdateStatus`. -/
def rowMatchesCAS (id tenantID : String) (version : Int) (r : StoredRow) :
    Bool :=
  r.todo.id == id && r.todo.tenantID == tenantID &&
    r.todo.version == version && r.deletedAt.isNone

/-- SET list of `UpdateStatus`: only status, updated_at and version. -/
def applyStatusSet (status : TodoStatus) (now : Int) (r : StoredRow) :
    StoredRow :=
  { r with
    todo := { r.todo with
      status := status, updatedAt := now, version := r.todo.version + 1 } }

/-- Repository `UpdateStatus`: conditional UPDATE with RETURNING; the row
handed back by the scan is the freshly stored one, and a no-rows result is
a version mismatch. -/
def PostgresRepository.UpdateStatus (store : List StoredRow)
    (id tenantID : String) (status : TodoStatus) (version : Int)
    (now : Int) : List StoredRow × Except DomainErr Todo :=
  match store.find? (fun r => rowMatchesCAS id tenantID version r) with
  | none => (store, Except.error DomainErr.errVersionMismatch)
  | some r =>
    (store.map (fun x =>
      if rowMatchesCAS id tenantID version x then applyStatusSet status now x
      else x),
      Except.ok (applyStatusSet status now r).todo)

/-- Repository `GetByID`: first live row of the tenant with the id, or
not-found. -/
def PostgresRepository.GetByID (store : List StoredRow)
    (id tenantID : String) : Except DomainErr Todo :=
  match store.find? (fun r =>
      r.todo.id == id && r.todo.tenantID == tenantID && r.deletedAt.isNone)
    with
  | none => Except.error DomainErr.errTodoNotFound
  | some r => Except.ok r.todo

/-- One INSERT into the todos table: the primary key on id makes a
duplicate id fail with a unique-key violation. -/
def insertTodo (store : List StoredRow) (todo : Todo) :
    Except DomainErr (List StoredRow) :=
  if store.any (fun r => r.todo.id == todo.id) then
    Except.error DomainErr.errConflict
  else Except.ok (store ++ [{ todo := todo, deletedAt := none }])

/-- The INSERT loop of `BatchCreate` running inside the transaction: the
first failing insert aborts the loop. -/
def insertAllTx : List StoredRow → List Todo →
    Except DomainErr (List StoredRow)
  | store, [] => Except.ok store
  | store, t :: ts =>
    match insertTodo store t with
    | Except.error e => Except.error e
    | Except.ok store1 => insertAllTx store1 ts

/-- Repository `BatchCreate`: the loop runs in one transaction; commit
publishes the new rows, any failure rolls back to the pre-call state. -/
def PostgresRepository.BatchCreate (store : List StoredRow)
    (todos : List Todo) : List StoredRow × Option DomainErr :=
  match insertAllTx store todos with
  | Except.ok store1 => (store1, none)
  | Except.error e => (store, some e)

/-- Proto enum `todov1.TodoStatus` including the unspecified value. -/
inductive ProtoStatus
  | unspecified
  | pending
  | inProgress
  | completed
  | archived
deriving DecidableEq, Repr

/-- Proto enum `todov1.TodoPriority` including the unspecified value. -/
inductive ProtoPriority
  | unspecified
  | low
  | medium
  | high
  | critical
deriving DecidableEq, Repr

/-- The wire-level task `todov1.Todo` as consumed by the update path:
proto3 scalar fields default to empty, message fields are optional. -/
structure ProtoTodo where
  title : String := ""
  description : String := ""
  status : ProtoStatus := ProtoStatus.unspecified
  priority : ProtoPriority := ProtoPriority.unspecified
  dueDate : Option Int := none
  assignedTo : String := ""
  tags : List String := []
deriving DecidableEq, Repr

/-- Service mapping `mapProtoStatus`: unknown values default to Pending. -/
def mapProtoStatus : ProtoStatus → TodoStatus
  | ProtoStatus.pending => TodoStatus.pending
  | ProtoStatus.inProgress => TodoStatus.inProgress
  | ProtoStatus.completed => TodoStatus.completed
  | ProtoStatus.archived => TodoStatus.archived
  | ProtoStatus.unspecified => TodoStatus.pending

/-- Service mapping `mapProtoPriority`: unknown values default to
Medium. -/
def mapProtoPriority : ProtoPriority → TodoPriority
  | ProtoPriority.low => TodoPriority.low
  | ProtoPriority.high => TodoPriority.high
  | ProtoPriority.critical => TodoPriority.critical
  | ProtoPriority.medium => TodoPriority.medium
  | ProtoPriority.unspecified => TodoPriority.medium

/-- One arm of the path switch in `applyFieldMaskUpdates`: a known field
name runs the corresponding aggregate mutator (due_date, assigned_to and
tags only when the request carries a value); an unknown name is skipped. -/
def applyOnePath (t : Todo) (u : ProtoTodo) (p : String) (now : Int) :
    Todo × Option DomainErr :=
  if p = "title" then t.UpdateTitle u.title now
  else if p = "description" then t.UpdateDescription u.description now
  else if p = "priority" then t.UpdatePriority (mapProtoPriority u.priority) now
  else if p = "status" then t.UpdateStatus (mapProtoStatus u.status) now
  else if p = "due_date" then
    match u.dueDate with
    | some d => t.SetDueDate (some d) now
    | none => (t, none)
  else if p = "assigned_to" then
    if u.assignedTo ≠ "" then t.AssignTo (some u.assignedTo) now else (t, none)
  else if p = "tags" then
    if u.tags ≠ [] then t.AddTags u.tags now else (t, none)
  else (t, none)

/-- The loop of `applyFieldMaskUpdates` over the mask paths: fails fast on
the first mutator error. -/
def applyPaths : Todo → ProtoTodo → List String → Int →
    Todo × Option DomainErr
  | t, _, [], _ => (t, none)
  | t, u, p :: ps, now =>
    match applyOnePath t u p now with
    | (t1, some e) => (t1, some e)
    | (t1, none) => applyPaths t1 u ps now

/-- Service `updateAllFields`: the no-mask default applies exactly the
title, description and priority mutators, in that order. -/
def updateAllFields (existing : Todo) (updates : ProtoTodo) (now : Int) :
    Todo × Option DomainErr :=
  match existing.UpdateTitle updates.title now with
  | (t1, some e) => (t1, some e)
  | (t1, none) =>
    match t1.UpdateDescription updates.description now with
    | (t2, some e) => (t2, some e)
    | (t2, none) => t2.UpdatePriority (mapProtoPriority updates.priority) now

/-- Service `applyFieldMaskUpdates`: a nil or empty mask means
`updateAllFields`; otherwise the named paths are applied in order. -/
def applyFieldMaskUpdates (existing : Todo) (updates : ProtoTodo)
    (mask : Option (List String)) (now : Int) : Todo × Option DomainErr :=
  match mask with
  | none => updateAllFields existing updates now
  | some paths =>
    if paths.isEmpty then updateAllFields existing updates now
    else applyPaths existing updates paths now

/-- Whether a mask path makes `applyFieldMaskUpdates` run an aggregate
mutator: the four always-applied names, plus due_date, assigned_to and
tags when the request carries a value for them. -/
def pathInvokesMutator (u : ProtoTodo) (p : String) : Bool :=
  p == "title" || p == "description" || p == "priority" || p == "status" ||
    (p == "due_date" && u.dueDate.isSome) ||
    (p == "assigned_to" && u.assignedTo != "") ||
    (p == "tags" && !u.tags.isEmpty)

/-- Number of aggregate mutators a mask makes `applyFieldMaskUpdates` run:
three for the no-mask default, otherwise one per invoking path. -/
def maskMutatorCount (u : ProtoTodo) (mask : Option (List String)) : Nat :=
  match mask with
  | none => 3
  | some paths =>
    if paths.isEmpty then 3 else paths.countP (pathInvokesMutator u)

/-- The field names `applyFieldMaskUpdates` recognises. -/
def knownMaskPaths : List String :=
  ["title", "description", "priority", "status", "due_date", "assigned_to",
    "tags"]

/-- Tail of the service `UpdateTodo` handler after the mask has been
applied: the mutated aggregate is handed to the repository's conditional
write and returned on success. -/
def finishUpdate (store : List StoredRow) (t : Todo) (now : Int) :
    List StoredRow × Except DomainErr Todo :=
  match PostgresRepository.Update store t now with
  | (store1, none) => (store1, Except.ok t)
  | (store1, some e) => (store1, Except.error e)

/-- Service `UpdateTodo` (authorization elided): load the aggregate, apply
the field mask, then submit the mutated aggregate to the repository's
conditional write. -/
def UpdateTodoService (store : List StoredRow) (id tenant : String)
    (updates : ProtoTodo) (mask : Option (List String)) (now : Int) :
    List StoredRow × Except DomainErr Todo :=
  match PostgresRepository.GetByID store id tenant with
  | Except.error e => (store, Except.error e)
  | Except.ok existing =>
    match applyFieldMaskUpdates existing updates mask now with
    | (_, some e) => (store, Except.error e)
    | (t1, none) => finishUpdate store t1 now

/-- A live stored task at version 1, used to exercise the operations on
concrete inputs. -/
def sampleTodo : Todo :=
  { id := "a1", title := "Ship v1", description := "", status := TodoStatus.pending,
    priority := TodoPriority.medium, dueDate := none, tags := [],
    ownerID := "u1", assignedTo := none, tenantID := "t1",
    createdAt := 0, updatedAt := 0, version := 1 }

/-- The stored row holding `sampleTodo`, not soft-deleted. -/
def sampleRow : StoredRow := { todo := sampleTodo, deletedAt := none }

/-- A one-row table. -/
def sampleStore : List StoredRow := [sampleRow]

/-- An update argument loaded at version 1 with a changed title. -/
def sampleUpdateArg : Todo := { sampleTodo with title := "Ship v1.1" }

/-- A batch whose second element reuses the id already stored in
`sampleStore`. -/
def sampleBatch : List Todo :=
  [{ sampleTodo with id := "a2" }, sampleTodo, { sampleTodo with id := "a3" }]

/-- A request payload carrying a new title, description, priority and
status. -/
def sampleProto : ProtoTodo :=
  { title := "T2", description := "D2", status := ProtoStatus.inProgress,
    priority := ProtoPriority.high }

/-- A request payload populating every updatable field. -/
def sampleProtoFull : ProtoTodo :=
  { title := "T2", description := "D2", status := ProtoStatus.archived,
    priority := ProtoPriority.high, dueDate := some 99,
    assignedTo := "bob", tags := ["x"] }

/-- A mask naming two known fields and one unknown one. -/
def sampleMask : Option (List String) := some ["title", "color", "status"]

/-- A filter requesting an ascending sort on a column outside the
allow-list. -/
def sortFilterBad : ListFilter :=
  { tenantID := "t1", sortBy := "owner_id", sortAscending := true }

/-- A filter with no requested sort field and the default direction. -/
def sortFilterDefault : ListFilter := { tenantID := "t1" }

/-- A filter with out-of-range pagination values. -/
def pageFilterSample : ListFilter :=
  { tenantID := "t1", page := 0, pageSize := 150 }

/-- A task already carrying 19 tags. -/
def sampleTaggedTodo : Todo :=
  { sampleTodo with
    tags := ["g01", "g02", "g03", "g04", "g05", "g06", "g07", "g08", "g09",
      "g10", "g11", "g12", "g13", "g14", "g15", "g16", "g17", "g18", "g19"] }

/-- The spec scenario filter: tenant t1, tag set {urgent}. -/
def softDeleteFilterSample : ListFilter :=
  { tenantID := "t1", tags := ["urgent"] }

/-- Rows with equal ids are equal in a table whose ids are pairwise
distinct (the primary key on id). -/
theorem mem_eq_of_unique_id {l : List StoredRow}
    (h : l.Pairwise (fun a b => a.todo.id ≠ b.todo.id))
    {a b : StoredRow} (ha : a ∈ l) (hb : b ∈ l)
    (hid : a.todo.id = b.todo.id) : a = b := by
  by_contra hne
  have hsym : Symmetric (fun a b : StoredRow => a.todo.id ≠ b.todo.id) :=
    fun x y hxy e => hxy e.symm
  exact List.Pairwise.forall hsym h ha hb hne hid

/-- Propositional reading of the conditional-update row predicate. -/
theorem rowMatchesUpdate_eq_iff (todo : Todo) (r : StoredRow) :
    rowMatchesUpdate todo r = true ↔
      r.todo.id = todo.id ∧ r.todo.tenantID = todo.tenantID ∧
        r.todo.version = todo.version ∧ r.deletedAt = none := by
  simp [rowMatchesUpdate, Bool.and_eq_true, beq_iff_eq,
    Option.isNone_iff_eq_none, and_assoc]

/-- C4: a status change is accepted exactly for the pairs of the
transition table (Pending to InProgress or Archived; InProgress to Pending,
Completed or Archived; Completed to Pending or Archived; Archived to
Pending); every self-transition is rejected, and a rejected transition
returns the aggregate unchanged with the InvalidTransition error. -/
theorem status_transition_table :
    (∀ f t : TodoStatus, isValidStatusTransition f t = true ↔
        ((f = TodoStatus.pending ∧
            (t = TodoStatus.inProgress ∨ t = TodoStatus.archived)) ∨
          (f = TodoStatus.inProgress ∧
            (t = TodoStatus.pending ∨ t = TodoStatus.completed ∨
              t = TodoStatus.archived)) ∨
          (f = TodoStatus.completed ∧
            (t = TodoStatus.pending ∨ t = TodoStatus.archived)) ∨
          (f = TodoStatus.archived ∧ t = TodoStatus.pending)))
    ∧ (∀ s : TodoStatus, isValidStatusTransition s s = false)
    ∧ (∀ (td : Todo) (ns : TodoStatus) (now : Int),
        isValidStatusTransition td.status ns = false →
          td.UpdateStatus ns now =
            (td, some DomainErr.errInvalidStatusTransition))
    ∧ (∀ (td : Todo) (ns : TodoStatus) (now : Int),
        isValidStatusTransition td.status ns = true →
          td.UpdateStatus ns now =
            ({ td with
                status := ns, updatedAt := now,
                version := td.version + 1 }, none)) := by
  refine ⟨by decide, by decide, ?_, ?_⟩
  · intro td ns now h
    simp [Todo.UpdateStatus, h]
  · intro td ns now h
    simp [Todo.UpdateStatus, h]

/-- Concrete run of the transition check: from Pending, a Completed target
is rejected unchanged and an InProgress target succeeds at version 2. -/
theorem status_transition_table_witness :
    sampleTodo.UpdateStatus TodoStatus.completed 5 =
      (sampleTodo, some DomainErr.errInvalidStatusTransition)
    ∧ sampleTodo.UpdateStatus TodoStatus.inProgress 5 =
      ({ sampleTodo with
          status := TodoStatus.inProgress, updatedAt := 5,
          version := sampleTodo.version + 1 }, none) :=
  ⟨status_transition_table.2.2.1 sampleTodo TodoStatus.completed 5 (by decide),
    status_transition_table.2.2.2 sampleTodo TodoStatus.inProgress 5
      (by decide)⟩

/-- C9: adding tags fails exactly when the stored tag count plus the new
tag count exceeds 20, returning the aggregate unchanged with the
too-many-tags error; otherwise the new tags are appended in order with the
version bumped and updated-at refreshed. -/
theorem add_tags_limit (t : Todo) (tags : List String) (now : Int) :
    (t.tags.length + tags.length > 20 →
        t.AddTags tags now = (t, some DomainErr.errTooManyTags))
    ∧ (t.tags.length + tags.length ≤ 20 →
        t.AddTags tags now =
          ({ t with
              tags := t.tags ++ tags, updatedAt := now,
              version := t.version + 1 }, none))
    ∧ (∀ t1 e, t.AddTags tags now = (t1, some e) →
        t1 = t ∧ e = DomainErr.errTooManyTags ∧
          t.tags.length + tags.length > 20) := by
  by_cases h : t.tags.length + tags.length > 20
  · refine ⟨fun _ => by simp [Todo.AddTags, h], fun hle => by omega, ?_⟩
    intro t1 e he
    simp [Todo.AddTags, h] at he
    exact ⟨he.1.symm, he.2.symm, h⟩
  · refine ⟨fun hgt => absurd hgt h, fun _ => by simp [Todo.AddTags, h], ?_⟩
    intro t1 e he
    simp [Todo.AddTags, h] at he

/-- Concrete run of the tag limit: 19 stored tags plus 2 new ones exceed
20, so the call fails and the task is returned unchanged. -/
theorem add_tags_limit_witness :
    sampleTaggedTodo.AddTags ["a", "b"] 9 =
      (sampleTaggedTodo, some DomainErr.errTooManyTags) :=
  (add_tags_limit sampleTaggedTodo ["a", "b"] 9).1 (by decide)

/-- C10: construction succeeds exactly when the title is non-empty and at
most 200 characters and the owner and tenant ids are non-empty; each
violated condition yields its specific validation error, and a fresh task
has version 1, status Pending, no tags, and updated-at equal to
created-at. -/
theorem new_todo_construct (id title description ownerID tenantID : String)
    (priority : TodoPriority) (now : Int) :
    ((∃ td, NewTodo id title description ownerID tenantID priority now =
        Except.ok td) ↔
      (title ≠ "" ∧ title.length ≤ 200 ∧ ownerID ≠ "" ∧ tenantID ≠ ""))
    ∧ (title = "" →
        NewTodo id title description ownerID tenantID priority now =
          Except.error DomainErr.errEmptyTitle)
    ∧ (title ≠ "" → title.length > 200 →
        NewTodo id title description ownerID tenantID priority now =
          Except.error DomainErr.errTitleTooLong)
    ∧ (title ≠ "" → title.length ≤ 200 → ownerID = "" →
        NewTodo id title description ownerID tenantID priority now =
          Except.error DomainErr.errInvalidOwnerId)
    ∧ (title ≠ "" → title.length ≤ 200 → ownerID ≠ "" → tenantID = "" →
        NewTodo id title description ownerID tenantID priority now =
          Except.error DomainErr.errInvalidTenantID)
    ∧ (∀ td,
        NewTodo id title description ownerID tenantID priority now =
          Except.ok td →
        td.version = 1 ∧ td.status = TodoStatus.pending ∧ td.tags = [] ∧
          td.updatedAt = td.createdAt ∧ td.createdAt = now) := by
  by_cases h1 : title = "" <;> by_cases h2 : title.length > 200 <;>
    by_cases h3 : ownerID = "" <;> by_cases h4 : tenantID = "" <;>
    simp [NewTodo, validateTitle, h1, h2, h3, h4] <;> omega

/-- Concrete construction: a valid triple yields a version-1 Pending task
whose updated-at equals its created-at. -/
theorem new_todo_construct_witness :
    ∃ td, NewTodo "a9" "Ship v1" "" "u1" "t1" TodoPriority.medium 7 =
        Except.ok td ∧
      td.version = 1 ∧ td.status = TodoStatus.pending ∧
        td.updatedAt = td.createdAt := by
  obtain ⟨td, htd⟩ :=
    (new_todo_construct "a9" "Ship v1" "" "u1" "t1" TodoPriority.medium 7).1.2
      ⟨by decide, by decide, by decide, by decide⟩
  have h :=
    (new_todo_construct "a9" "Ship v1" "" "u1" "t1"
      TodoPriority.medium 7).2.2.2.2.2 td htd
  exact ⟨td, htd, h.1, h.2.1, h.2.2.2.1⟩

/-- C8: with a non-empty tenant, filter validation always succeeds; a page
below 1 is clamped to 1, a page size outside 1..100 is replaced by the
default 20, and the list query uses limit pageSize and offset
(page - 1) * pageSize on the clamped values. -/
theorem pagination_clamping (f : ListFilter) (h : f.tenantID ≠ "") :
    ∃ f1, f.Validate = Except.ok f1 ∧
      f1.page = (if f.page < 1 then 1 else f.page) ∧
      f1.pageSize =
        (if f.pageSize < 1 ∨ f.pageSize > 100 then 20 else f.pageSize) ∧
      f1.tenantID = f.tenantID ∧
      listLimitOffset f1 = (f1.pageSize, (f1.page - 1) * f1.pageSize) := by
  by_cases hp : f.page < 1 <;> by_cases hs : f.pageSize < 1 ∨ f.pageSize > 100
  · exact ⟨{ f with page := 1, pageSize := 20 },
      by simp [ListFilter.Validate, h, hp, hs], by simp [hp], by simp [hs],
      rfl, rfl⟩
  · exact ⟨{ f with page := 1 },
      by simp [ListFilter.Validate, h, hp, hs], by simp [hp], by simp [hs],
      rfl, rfl⟩
  · exact ⟨{ f with pageSize := 20 },
      by simp [ListFilter.Validate, h, hp, hs], by simp [hp], by simp [hs],
      rfl, rfl⟩
  · exact ⟨f,
      by simp [ListFilter.Validate, h, hp, hs], by simp [hp], by simp [hs],
      rfl, rfl⟩

/-- Concrete clamping: page 0 and page size 150 become page 1 and the
default page size 20. -/
theorem pagination_clamping_witness :
    ∃ f1, pageFilterSample.Validate = Except.ok f1 ∧
      f1.page = 1 ∧ f1.pageSize = 20 := by
  obtain ⟨f1, hv, hp, hs, -, -⟩ :=
    pagination_clamping pageFilterSample (by decide)
  refine ⟨f1, hv, ?_, ?_⟩
  · simpa using hp
  · simp only [pageFilterSample] at hs
    simpa using hs

/-- C7 as stated is false: an out-of-allow-list sort field with a
requested ascending direction compiles to created_at ASC, not to
created_at descending. -/
theorem order_by_claim_counterexample :
    validSortFields.contains sortFilterBad.sortBy = false ∧
    buildOrderByClause sortFilterBad = "ORDER BY created_at ASC" ∧
    ¬ buildOrderByClause sortFilterBad = "ORDER BY created_at DESC" := by
  refine ⟨by decide, by decide, by decide⟩

/-- C7 (amended): an out-of-allow-list sort field (including the empty
string) never fails and falls back to created_at while keeping the
requested direction (descending only when descending was requested); an
allow-listed field is used as is with the requested direction. -/
theorem order_by_fallback (f : ListFilter) :
    (validSortFields.contains f.sortBy = false →
      buildOrderByClause f =
        "ORDER BY created_at " ++ (if f.sortAscending then "ASC" else "DESC"))
    ∧ (validSortFields.contains f.sortBy = true →
      buildOrderByClause f =
        "ORDER BY " ++ f.sortBy ++ " " ++
          (if f.sortAscending then "ASC" else "DESC")) := by
  constructor
  · intro h
    have hmem : f.sortBy ∉ validSortFields := by simpa using h
    by_cases ha : f.sortAscending <;> simp [buildOrderByClause, hmem, ha]
  · intro h
    have hmem : f.sortBy ∈ validSortFields := by simpa using h
    by_cases ha : f.sortAscending <;> simp [buildOrderByClause, hmem, ha]

/-- Concrete fallback: an empty sort field with the default descending
direction compiles to created_at DESC. -/
theorem order_by_fallback_witness :
    buildOrderByClause sortFilterDefault = "ORDER BY created_at DESC" := by
  have h := (order_by_fallback sortFilterDefault).1 (by decide)
  simpa using h

/-- C2: the compiled WHERE clause (spec scenario filter tenant t1, tags
{urgent}) carries the typo conjunct on column delete_at, which is not a
column of the todos table (the schema's soft-delete column is deleted_at),
so the predicate does not exclude soft-deleted rows; the tenant conjunct
and the parameter binding are as described. -/
theorem where_clause_delete_at_typo :
    (buildWhereConditions softDeleteFilterSample).1 =
      ["tenant_id = $1", "delete_at IS NULL", "tags && $2"]
    ∧ (buildWhereConditions softDeleteFilterSample).2 =
      [SqlArg.str "t1", SqlArg.strArr ["urgent"]]
    ∧ (buildWhereClause softDeleteFilterSample).1 =
      "tenant_id = $1 AND delete_at IS NULL AND tags && $2"
    ∧ todosColumns.contains "delete_at" = false
    ∧ todosColumns.contains "deleted_at" = true := by
  refine ⟨by decide, by decide, by decide, by decide, by decide⟩

/-- A transaction loop that runs to completion has appended exactly the
given tasks, in order, as live rows. -/
theorem insertAllTx_ok :
    ∀ (todos : List Todo) (store store1 : List StoredRow),
      insertAllTx store todos = Except.ok store1 →
      store1 = store ++ todos.map (fun t => { todo := t, deletedAt := none })
  | [], store, store1 => by
    intro h
    simp [insertAllTx] at h
    simp [h.symm]
  | t :: ts, store, store1 => by
    intro h
    simp only [insertAllTx, insertTodo] at h
    by_cases hd : store.any (fun r => r.todo.id == t.id)
    · simp [hd] at h
    · simp only [hd, if_neg, Bool.false_eq_true, not_false_eq_true,
        reduceIte] at h
      have := insertAllTx_ok ts (store ++ [{ todo := t, deletedAt := none }])
        store1 h
      simpa [List.append_assoc] using this

/-- The only error the transaction loop can produce is the duplicate-id
unique-key violation. -/
theorem insertAllTx_error :
    ∀ (todos : List Todo) (store : List StoredRow) (e : DomainErr),
      insertAllTx store todos = Except.error e → e = DomainErr.errConflict
  | [], store, e => by
    intro h
    simp [insertAllTx] at h
  | t :: ts, store, e => by
    intro h
    simp only [insertAllTx, insertTodo] at h
    by_cases hd : store.any (fun r => r.todo.id == t.id)
    · simp [hd] at h
      exact h.symm
    · simp only [hd, if_neg, Bool.false_eq_true, not_false_eq_true,
        reduceIte] at h
      exact insertAllTx_error ts (store ++ [{ todo := t, deletedAt := none }])
        e h

/-- C5: BatchCreate is all-or-nothing: on any failure the visible store is
exactly the pre-call store (and the failure is the duplicate-id conflict),
while on success the store is the old store plus every given task inserted
in order as a live row. -/
theorem batch_create_all_or_nothing (store : List StoredRow)
    (todos : List Todo) :
    (∀ e, (PostgresRepository.BatchCreate store todos).2 = some e →
        (PostgresRepository.BatchCreate store todos).1 = store ∧
          e = DomainErr.errConflict)
    ∧ ((PostgresRepository.BatchCreate store todos).2 = none →
        (PostgresRepository.BatchCreate store todos).1 =
          store ++ todos.map (fun t => { todo := t, deletedAt := none })) := by
  constructor
  · intro e he
    unfold PostgresRepository.BatchCreate at he ⊢
    rcases hx : insertAllTx store todos with e1 | s1
    · rw [hx] at he
      simp at he
      exact ⟨by simp, by rw [← he]; exact (insertAllTx_error todos store e1 hx)⟩
    · rw [hx] at he
      simp at he
  · intro hn
    unfold PostgresRepository.BatchCreate at hn ⊢
    rcases hx : insertAllTx store todos with e1 | s1
    · rw [hx] at hn
      simp at hn
    · rw [hx] at hn
      simp
      exact insertAllTx_ok todos store s1 hx

/-- Concrete batch: three tasks whose second id collides with the stored
row; the whole batch fails with the conflict error and the table is left
exactly as before the call. -/
theorem batch_create_all_or_nothing_witness :
    (PostgresRepository.BatchCreate sampleStore sampleBatch).2 =
      some DomainErr.errConflict ∧
    (PostgresRepository.BatchCreate sampleStore sampleBatch).1 =
      sampleStore :=
  ⟨by decide,
    ((batch_create_all_or_nothing sampleStore sampleBatch).1
      DomainErr.errConflict (by decide)).1⟩

/-- Every priority of the enum passes the range check. -/
theorem isValidPriority_true (p : TodoPriority) : isValidPriority p = true := by
  cases p <;> decide

/-- A successful title update writes the new title, refreshes updated-at
and bumps the version by one. -/
theorem UpdateTitle_ok_eq (t : Todo) (s : String) (now : Int) (t1 : Todo)
    (h : t.UpdateTitle s now = (t1, none)) :
    t1 = { t with title := s, updatedAt := now, version := t.version + 1 } := by
  unfold Todo.UpdateTitle at h
  rcases hv : validateTitle s with _ | e <;> rw [hv] at h <;> simp at h
  exact h.symm

/-- A successful description update writes the new description, refreshes
updated-at and bumps the version by one. -/
theorem UpdateDescription_ok_eq (t : Todo) (s : String) (now : Int)
    (t1 : Todo) (h : t.UpdateDescription s now = (t1, none)) :
    t1 = { t with
        description := s, updatedAt := now, version := t.version + 1 } := by
  unfold Todo.UpdateDescription at h
  by_cases hl : s.length > 2000 <;> simp [hl] at h
  exact h.symm

/-- A priority update always succeeds and bumps the version by one. -/
theorem UpdatePriority_eq (t : Todo) (p : TodoPriority) (now : Int) :
    t.UpdatePriority p now =
      ({ t with
          priority := p, updatedAt := now, version := t.version + 1 },
        none) := by
  simp [Todo.UpdatePriority, isValidPriority_true p]

/-- A successful arm of the mask switch bumps the version by one exactly
when the path invokes a mutator, and leaves it unchanged otherwise. -/
theorem applyOnePath_ok_version (t : Todo) (u : ProtoTodo) (p : String)
    (now : Int) (t1 : Todo) (h : applyOnePath t u p now = (t1, none)) :
    t1.version = t.version +
      (if pathInvokesMutator u p then 1 else 0) := by
  by_cases h1 : p = "title"
  · subst h1
    rw [UpdateTitle_ok_eq t u.title now t1 (by simpa [applyOnePath] using h)]
    simp [pathInvokesMutator]
  · by_cases h2 : p = "description"
    · subst h2
      rw [UpdateDescription_ok_eq t u.description now t1
        (by simpa [applyOnePath] using h)]
      simp [pathInvokesMutator]
    · by_cases h3 : p = "priority"
      · subst h3
        have h' : t.UpdatePriority (mapProtoPriority u.priority) now =
            (t1, none) := by simpa [applyOnePath] using h
        rw [UpdatePriority_eq] at h'
        simp at h'
        subst h'
        simp [pathInvokesMutator]
      · by_cases h4 : p = "status"
        · subst h4
          have h' : t.UpdateStatus (mapProtoStatus u.status) now =
              (t1, none) := by simpa [applyOnePath] using h
          unfold Todo.UpdateStatus at h'
          by_cases hv :
              isValidStatusTransition t.status (mapProtoStatus u.status) <;>
            simp [hv] at h'
          subst h'
          simp [pathInvokesMutator]
        · by_cases h5 : p = "due_date"
          · subst h5
            rcases hd : u.dueDate with _ | d
            · have h' : t = t1 := by simpa [applyOnePath, hd] using h
              subst h'
              simp [pathInvokesMutator, hd]
            · have h' : t.SetDueDate (some d) now = (t1, none) := by
                simpa [applyOnePath, hd] using h
              unfold Todo.SetDueDate at h'
              by_cases hlt : d < now <;> simp [hlt] at h'
              subst h'
              simp [pathInvokesMutator, hd]
          · by_cases h6 : p = "assigned_to"
            · subst h6
              by_cases ha : u.assignedTo = ""
              · have h' : t = t1 := by simpa [applyOnePath, ha] using h
                subst h'
                simp [pathInvokesMutator, ha]
              · have h' : { t with
                    assignedTo := some u.assignedTo, updatedAt := now,
                    version := t.version + 1 } = t1 := by
                  simpa [applyOnePath, ha, Todo.AssignTo] using h
                subst h'
                simp [pathInvokesMutator, ha]
            · by_cases h7 : p = "tags"
              · subst h7
                by_cases ht : u.tags = []
                · have h' : t = t1 := by simpa [applyOnePath, ht] using h
                  subst h'
                  simp [pathInvokesMutator, ht]
                · have h' : t.AddTags u.tags now = (t1, none) := by
                    simpa [applyOnePath, ht] using h
                  unfold Todo.AddTags at h'
                  by_cases hn : t.tags.length + u.tags.length > 20 <;>
                    simp [hn] at h'
                  subst h'
                  simp [pathInvokesMutator, ht]
              · have h' : t = t1 := by
                  simpa [applyOnePath, h1, h2, h3, h4, h5, h6, h7] using h
                subst h'
                simp [pathInvokesMutator, h1, h2, h3, h4, h5, h6, h7]

/-- A successful pass over a path list advances the version by exactly the
number of paths that invoke a mutator. -/
theorem applyPaths_ok_version (u : ProtoTodo) (now : Int) :
    ∀ (ps : List String) (t t1 : Todo),
      applyPaths t u ps now = (t1, none) →
      t1.version = t.version + (ps.countP (pathInvokesMutator u) : Int)
  | [], t, t1 => by
    intro h
    simp [applyPaths] at h
    simp [h.symm]
  | p :: ps, t, t1 => by
    intro h
    simp only [applyPaths] at h
    rcases hstep : applyOnePath t u p now with ⟨t2, e2⟩
    rw [hstep] at h
    cases e2 with
    | some e => simp at h
    | none =>
      simp only at h
      have h2 := applyOnePath_ok_version t u p now t2 hstep
      have h3 := applyPaths_ok_version u now ps t2 t1 h
      rw [h3, h2, List.countP_cons]
      by_cases hi : pathInvokesMutator u p <;> simp [hi] <;> push_cast <;> ring

/-- The no-mask default writes exactly the new title, description and
priority, refreshes updated-at and advances the version by three; status,
due date, assignment and tags keep their stored values. -/
theorem updateAllFields_ok_eq (t : Todo) (u : ProtoTodo) (now : Int)
    (t1 : Todo) (h : updateAllFields t u now = (t1, none)) :
    t1 = { t with
        title := u.title, description := u.description,
        priority := mapProtoPriority u.priority, updatedAt := now,
        version := t.version + 3 } := by
  unfold updateAllFields at h
  rcases h1 : t.UpdateTitle u.title now with ⟨ta, ea⟩
  rw [h1] at h
  cases ea with
  | some e => simp at h
  | none =>
    simp only at h
    have hta := UpdateTitle_ok_eq t u.title now ta h1
    rcases h2 : ta.UpdateDescription u.description now with ⟨tb, eb⟩
    rw [h2] at h
    cases eb with
    | some e => simp at h
    | none =>
      simp only at h
      have htb := UpdateDescription_ok_eq ta u.description now tb h2
      simp only [UpdatePriority_eq, Prod.mk.injEq] at h
      rw [← h.1, htb, hta]
      cases t
      simp
      omega

/-- C3: when UpdateTodo loads a task at version N and the mask makes k
aggregate mutators run, the aggregate handed to the repository's
conditional write carries version N + k (N only when k = 0), so that is
the expected-version value the conditional write compares against. -/
theorem field_mask_expected_version (store : List StoredRow)
    (id tenant : String) (u : ProtoTodo) (mask : Option (List String))
    (now : Int) (existing t1 : Todo)
    (hget : PostgresRepository.GetByID store id tenant = Except.ok existing)
    (happly : applyFieldMaskUpdates existing u mask now = (t1, none)) :
    t1.version = existing.version + (maskMutatorCount u mask : Int)
    ∧ (maskMutatorCount u mask = 0 → t1.version = existing.version)
    ∧ UpdateTodoService store id tenant u mask now =
        finishUpdate store t1 now := by
  have hmain : t1.version =
      existing.version + (maskMutatorCount u mask : Int) := by
    cases mask with
    | none =>
      simp only [applyFieldMaskUpdates] at happly
      rw [updateAllFields_ok_eq existing u now t1 happly]
      simp [maskMutatorCount]
    | some paths =>
      by_cases hp : paths.isEmpty
      · simp only [applyFieldMaskUpdates, hp, if_true] at happly
        rw [updateAllFields_ok_eq existing u now t1 happly]
        simp [maskMutatorCount, hp]
      · simp only [applyFieldMaskUpdates, hp, if_false,
          Bool.false_eq_true] at happly
        rw [applyPaths_ok_version u now paths existing t1 happly]
        simp [maskMutatorCount, hp]
  refine ⟨hmain, fun h0 => by rw [hmain, h0]; simp, ?_⟩
  simp only [UpdateTodoService, hget, happly]

/-- Concrete mask run: the mask names title, an unknown field and status,
so two mutators run and the aggregate submitted to the conditional write
carries version 1 + 2 = 3. -/
theorem field_mask_expected_version_witness :
    (applyFieldMaskUpdates sampleTodo sampleProto sampleMask 5).1.version =
      sampleTodo.version + (maskMutatorCount sampleProto sampleMask : Int) :=
  (field_mask_expected_version sampleStore "a1" "t1" sampleProto sampleMask 5
    sampleTodo (applyFieldMaskUpdates sampleTodo sampleProto sampleMask 5).1
    (by decide) (by decide)).1

/-- C6: with no mask (or an empty one) exactly the title, description and
priority mutators are applied and status, due date, assignment and tags
keep their stored values; with a mask, each named known field runs its
aggregate mutator in order, the first failure aborts the remaining paths,
and unknown field names are skipped without error. -/
theorem field_mask_application :
    (∀ (t : Todo) (u : ProtoTodo) (now : Int),
        applyFieldMaskUpdates t u none now = updateAllFields t u now ∧
        applyFieldMaskUpdates t u (some []) now = updateAllFields t u now)
    ∧ (∀ (t : Todo) (u : ProtoTodo) (now : Int) (t1 : Todo),
        updateAllFields t u now = (t1, none) →
        t1 = { t with
            title := u.title, description := u.description,
            priority := mapProtoPriority u.priority, updatedAt := now,
            version := t.version + 3 })
    ∧ (∀ (t : Todo) (u : ProtoTodo) (p : String) (ps : List String)
        (now : Int) (t1 : Todo) (e : DomainErr),
        applyOnePath t u p now = (t1, some e) →
        applyPaths t u (p :: ps) now = (t1, some e))
    ∧ (∀ (t : Todo) (u : ProtoTodo) (p : String) (ps : List String)
        (now : Int), p ∉ knownMaskPaths →
        applyPaths t u (p :: ps) now = applyPaths t u ps now)
    ∧ (∀ (t : Todo) (u : ProtoTodo) (now : Int),
        applyOnePath t u "title" now = t.UpdateTitle u.title now ∧
        applyOnePath t u "description" now =
          t.UpdateDescription u.description now ∧
        applyOnePath t u "priority" now =
          t.UpdatePriority (mapProtoPriority u.priority) now ∧
        applyOnePath t u "status" now =
          t.UpdateStatus (mapProtoStatus u.status) now) := by
  refine ⟨fun t u now => ⟨rfl, rfl⟩,
    fun t u now t1 h => updateAllFields_ok_eq t u now t1 h, ?_, ?_, ?_⟩
  · intro t u p ps now t1 e h
    simp [applyPaths, h]
  · intro t u p ps now hp
    simp only [knownMaskPaths, List.mem_cons, List.not_mem_nil, or_false,
      not_or] at hp
    obtain ⟨h1, h2, h3, h4, h5, h6, h7⟩ := hp
    have hstep : applyOnePath t u p now = (t, none) := by
      simp [applyOnePath, h1, h2, h3, h4, h5, h6, h7]
    simp [applyPaths, hstep]
  · intro t u now
    exact ⟨by simp [applyOnePath], by simp [applyOnePath],
      by simp [applyOnePath], by simp [applyOnePath]⟩

/-- Concrete no-mask update: a request carrying a new status, due date,
assignee and tags leaves all four untouched under the default
apply-all-fields path. -/
theorem field_mask_application_witness :
    (updateAllFields sampleTodo sampleProtoFull 5).1.status =
        sampleTodo.status ∧
    (updateAllFields sampleTodo sampleProtoFull 5).1.dueDate =
        sampleTodo.dueDate ∧
    (updateAllFields sampleTodo sampleProtoFull 5).1.assignedTo =
        sampleTodo.assignedTo ∧
    (updateAllFields sampleTodo sampleProtoFull 5).1.tags =
        sampleTodo.tags := by
  have h := field_mask_application.2.1 sampleTodo sampleProtoFull 5
    (updateAllFields sampleTodo sampleProtoFull 5).1 (by decide)
  refine ⟨?_, ?_, ?_, ?_⟩ <;> rw [h]

/-- C1: for a stored live row at version N with unique ids, Update and
UpdateStatus succeed exactly when the argument's id, tenant and version
all match the row; on success the stored version becomes N + 1 and
updated-at is refreshed, UpdateStatus additionally returning the freshly
stored row; on a zero-row match both fail with the version-mismatch error
and leave the table unchanged. -/
theorem update_conditional_write (store : List StoredRow) (r : StoredRow)
    (todo : Todo) (st : TodoStatus) (now : Int)
    (huniq : store.Pairwise (fun a b => a.todo.id ≠ b.todo.id))
    (hr : r ∈ store) (hlive : r.deletedAt = none)
    (hid : todo.id = r.todo.id) :
    ((PostgresRepository.Update store todo now).2 = none ↔
        (todo.tenantID = r.todo.tenantID ∧ todo.version = r.todo.version))
    ∧ (todo.tenantID = r.todo.tenantID → todo.version = r.todo.version →
        (PostgresRepository.Update store todo now).2 = none ∧
        applyUpdateSet todo now r ∈
          (PostgresRepository.Update store todo now).1 ∧
        (applyUpdateSet todo now r).todo.version = r.todo.version + 1 ∧
        (applyUpdateSet todo now r).todo.updatedAt = now)
    ∧ (¬(todo.tenantID = r.todo.tenantID ∧ todo.version = r.todo.version) →
        PostgresRepository.Update store todo now =
          (store, some DomainErr.errVersionMismatch))
    ∧ (((PostgresRepository.UpdateStatus store todo.id todo.tenantID st
          todo.version now).2 = Except.ok ((applyStatusSet st now r).todo)) ↔
        (todo.tenantID = r.todo.tenantID ∧ todo.version = r.todo.version))
    ∧ (todo.tenantID = r.todo.tenantID → todo.version = r.todo.version →
        applyStatusSet st now r ∈
          (PostgresRepository.UpdateStatus store todo.id todo.tenantID st
            todo.version now).1 ∧
        (applyStatusSet st now r).todo.version = r.todo.version + 1 ∧
        (applyStatusSet st now r).todo.status = st ∧
        (applyStatusSet st now r).todo.updatedAt = now)
    ∧ (¬(todo.tenantID = r.todo.tenantID ∧ todo.version = r.todo.version) →
        PostgresRepository.UpdateStatus store todo.id todo.tenantID st
          todo.version now =
          (store, Except.error DomainErr.errVersionMismatch)) := by
  have hmatch_r : rowMatchesUpdate todo r = true ↔
      (todo.tenantID = r.todo.tenantID ∧ todo.version = r.todo.version) := by
    rw [rowMatchesUpdate_eq_iff]
    constructor
    · rintro ⟨-, h2, h3, -⟩
      exact ⟨h2.symm, h3.symm⟩
    · rintro ⟨h2, h3⟩
      exact ⟨hid.symm, h2.symm, h3.symm, hlive⟩
  have hmem_match : ∀ a ∈ store, rowMatchesUpdate todo a = true → a = r := by
    intro a ha hpa
    exact mem_eq_of_unique_id huniq ha hr (by
      rw [((rowMatchesUpdate_eq_iff todo a).1 hpa).1, hid])
  have hex : (∃ a ∈ store, rowMatchesUpdate todo a = true) ↔
      (todo.tenantID = r.todo.tenantID ∧ todo.version = r.todo.version) := by
    constructor
    · rintro ⟨a, ha, hpa⟩
      have hra := hmem_match a ha hpa
      rw [hra] at hpa
      exact hmatch_r.1 hpa
    · intro h
      exact ⟨r, hr, hmatch_r.2 h⟩
  by_cases hP : todo.tenantID = r.todo.tenantID ∧ todo.version = r.todo.version
  · have hrm : rowMatchesUpdate todo r = true := hmatch_r.2 hP
    have hcpos : ¬store.countP (fun x => rowMatchesUpdate todo x) = 0 := by
      have hpos : 0 < store.countP (fun x => rowMatchesUpdate todo x) :=
        List.countP_pos_iff.2 ⟨r, hr, hrm⟩
      omega
    have hupd : PostgresRepository.Update store todo now =
        (store.map (fun x =>
          if rowMatchesUpdate todo x then applyUpdateSet todo now x else x),
          none) := by
      simp [PostgresRepository.Update, hcpos]
    have hrm' : rowMatchesCAS todo.id todo.tenantID todo.version r = true := hrm
    have hsome : (store.find?
        (fun x => rowMatchesCAS todo.id todo.tenantID todo.version x)).isSome :=
      List.find?_isSome.2 ⟨r, hr, hrm'⟩
    obtain ⟨a, hfa⟩ := Option.isSome_iff_exists.1 hsome
    have hpa' : rowMatchesCAS todo.id todo.tenantID todo.version a = true :=
      List.find?_some hfa
    have hra : a = r :=
      hmem_match a (List.mem_of_find?_eq_some hfa) hpa'
    rw [hra] at hfa
    have hus : PostgresRepository.UpdateStatus store todo.id todo.tenantID st
        todo.version now =
        (store.map (fun x =>
          if rowMatchesCAS todo.id todo.tenantID todo.version x then
            applyStatusSet st now x else x),
          Except.ok (applyStatusSet st now r).todo) := by
      simp [PostgresRepository.UpdateStatus, hfa]
    refine ⟨by simp [hupd, hP], ?_, fun hn => absurd hP hn,
      Iff.intro (fun _ => hP) (fun _ => by rw [hus]), ?_,
      fun hn => absurd hP hn⟩
    · intro h2 h3
      refine ⟨by simp [hupd], ?_, by simp [applyUpdateSet],
        by simp [applyUpdateSet]⟩
      have hm := List.mem_map_of_mem (fun x =>
        if rowMatchesUpdate todo x then applyUpdateSet todo now x else x) hr
      simp only [hrm, if_true] at hm
      rw [hupd]
      exact hm
    · intro h2 h3
      refine ⟨?_, by simp [applyStatusSet], by simp [applyStatusSet],
        by simp [applyStatusSet]⟩
      have hm := List.mem_map_of_mem (fun x =>
        if rowMatchesCAS todo.id todo.tenantID todo.version x then
          applyStatusSet st now x else x) hr
      simp only [hrm', if_true] at hm
      rw [hus]
      exact hm
  · have hnone : ∀ a ∈ store, ¬(rowMatchesUpdate todo a = true) :=
      fun a ha hpa => hP (hex.1 ⟨a, ha, hpa⟩)
    have hc0 : store.countP (fun x => rowMatchesUpdate todo x) = 0 :=
      List.countP_eq_zero.2 hnone
    have hupd : PostgresRepository.Update store todo now =
        (store, some DomainErr.errVersionMismatch) := by
      simp [PostgresRepository.Update, hc0]
    have hfn : store.find?
        (fun x => rowMatchesCAS todo.id todo.tenantID todo.version x) =
          none :=
      List.find?_eq_none.2 hnone
    have hus : PostgresRepository.UpdateStatus store todo.id todo.tenantID st
        todo.version now =
        (store, Except.error DomainErr.errVersionMismatch) := by
      simp [PostgresRepository.UpdateStatus, hfn]
    exact ⟨by simp [hupd, hP], fun h2 h3 => absurd ⟨h2, h3⟩ hP,
      fun _ => hupd, by simp [hus, hP], fun h2 h3 => absurd ⟨h2, h3⟩ hP,
      fun _ => hus⟩

/-- Concrete conditional writes against the one-row table: an update
loaded at the stored version succeeds, and the status CAS returns the
freshly stored row at version 2. -/
theorem update_conditional_write_witness :
    (PostgresRepository.Update sampleStore sampleUpdateArg 5).2 = none ∧
    (PostgresRepository.UpdateStatus sampleStore sampleUpdateArg.id
        sampleUpdateArg.tenantID TodoStatus.inProgress
        sampleUpdateArg.version 5).2 =
      Except.ok (applyStatusSet TodoStatus.inProgress 5 sampleRow).todo := by
  have h := update_conditional_write sampleStore sampleRow sampleUpdateArg
    TodoStatus.inProgress 5 (by simp [sampleStore]) (by simp [sampleStore])
    (by decide) (by decide)
  exact ⟨h.1.2 ⟨by decide, by decide⟩, h.2.2.2.1.2 ⟨by decide, by decide⟩⟩
